import Mathlib

/-!
Shallow embedding of the boulder compiler front end (lexer, token model,
operator table, parser with shunting-yard) translated from the Rust
sources: src/main.rs (CodePos, validate_boulder_file, read_file),
src/error.rs, src/operator.rs, src/token.rs, src/input_reader.rs,
src/lexer.rs, src/statement.rs, src/parser.rs.

Rust mutation is rendered as explicit state passing: functions that
mutate an InputReader or TokenList take it and return the updated one.
Fallible code returns Except Error. The parser in the source is
general-recursive (imports can even recurse forever on cyclic files), so
each parser function takes a fuel parameter that strictly decreases on
every recursive call; fuel exhaustion is a distinct artificial error that
never fires at the fuel bounds used in the theorems below.
-/

namespace Boulder

/-- Source position, from src/main.rs struct CodePos. -/
structure CodePos where
  file : Option String
  line : Nat
  ch : Nat
deriving DecidableEq, Repr

/-- CodePos::default: no file, line 1, column 1. -/
def CodePos.dflt : CodePos := ⟨none, 1, 1⟩

/-- CodePos::next: column += 1. -/
def CodePos.next (p : CodePos) : CodePos := { p with ch := p.ch + 1 }

/-- CodePos::newline: line += 1, column := 1. -/
def CodePos.newline (p : CodePos) : CodePos := { p with line := p.line + 1, ch := 1 }

/-- Diagnostic, from src/error.rs struct Error. -/
structure Error where
  core_msg : Option String
  msg : String
  pos : CodePos
deriving DecidableEq, Repr

/-- Error::new. -/
def Error.new (core : String) (msg : String) (pos : CodePos) : Error :=
  ⟨some core, msg, pos⟩

/-- Error::new_singular. -/
def Error.new_singular (msg : String) (pos : CodePos) : Error :=
  ⟨none, msg, pos⟩

/-- Operator tags, from src/operator.rs enum Operator. -/
inductive Operator where
  | Add | Sub | Mul | Div | Mod | Xor | And | Or | Not
  | Assign | Eq | Neq | Lt | Lte | Gt | Gte | BoolAnd | BoolOr
  | MulAssign | DivAssign | ModAssign | AddAssign | SubAssign
  | XorAssign | AndAssign | OrAssign
  | Shl | Shr | ShlAssign | ShrAssign | Shlu | Shru
  | Move | Inc | Dec | Right | Range | IRange
deriving DecidableEq, Repr, Fintype

/-- Operator::precedence: 0 to 2, None for tags shunting-yard should not see. -/
def Operator.precedence : Operator → Option Nat
  | .Add | .Sub | .Gt | .Lt => some 0
  | .Mul | .Div | .Mod | .Gte | .Lte | .BoolAnd | .BoolOr => some 1
  | .Xor | .And | .Or | .Not | .Shl | .Shr | .Shlu | .Shru | .Eq | .Neq => some 2
  | _ => none

/-- Rust derived Ord on Option(u8): None is below every Some, used by the
shunting-yard comparison o2.precedence() <= operator.precedence(). -/
def optLe : Option Nat → Option Nat → Bool
  | none, _ => true
  | some _, none => false
  | some a, some b => a ≤ b

/-- Token kinds, from src/token.rs enum TokenType.
Modelled from the spec: the variants Assert and In are used by
src/lexer.rs and src/parser.rs but the declaration in src/token.rs lacks
them; the spec lists both among the keyword kinds, so they are added
here. -/
inductive TokenType where
  | NOP | EOF | Whitespace
  | Comma | Dot | Range | Colon | DoubleColon
  | OpenParen | CloseParen | OpenBrace | CloseBrace | OpenBracket | CloseBracket
  | Interrupt | Panic
  | Ident
  | StringLit | CharLit | NumberLit | HexLit | BinLit
  | Operator
  | Fn | Let | If | Else | While | For | Loop | Return | Match | Struct
  | Use | Macro | BoolTrue | BoolFalse
  | Assert | In
deriving DecidableEq, Repr

/-- Display for TokenType, from src/token.rs (Assert and In follow the
spec naming; the source impl omits them like the enum does). -/
def TokenType.display : TokenType → String
  | .NOP => "NOP"
  | .EOF => "EOF"
  | .Whitespace => "Whitespace"
  | .Comma => "Comma"
  | .Ident => "Ident"
  | .StringLit => "StringLit"
  | .CharLit => "CharLit"
  | .NumberLit => "NumberLit"
  | .Operator => "Operator"
  | .Fn => "Fn"
  | .Let => "Let"
  | .If => "If"
  | .Else => "Else"
  | .While => "While"
  | .For => "For"
  | .Loop => "Loop"
  | .Return => "Return"
  | .Match => "Match"
  | .Struct => "Struct"
  | .BoolTrue => "BoolTrue"
  | .BoolFalse => "BoolFalse"
  | .Dot => "Dot"
  | .Range => "Range"
  | .Colon => "Colon"
  | .OpenParen => "OpenParen"
  | .CloseParen => "CloseParen"
  | .OpenBrace => "OpenBrace"
  | .CloseBrace => "CloseBrace"
  | .OpenBracket => "OpenBracket"
  | .CloseBracket => "CloseBracket"
  | .DoubleColon => "DoubleColon"
  | .Interrupt => "Interrupt"
  | .Panic => "Panic"
  | .Use => "Use"
  | .Macro => "Macro"
  | .HexLit => "HexLit"
  | .BinLit => "BinLit"
  | .Assert => "Assert"
  | .In => "In"

/-- Token, from src/token.rs struct Token (the Rust field end is a Lean
keyword and is written endPos). -/
structure Token where
  token_type : TokenType
  value : Option String
  op : Option Operator
  start : CodePos
  endPos : CodePos
deriving DecidableEq, Repr

/-- Token::new. -/
def Token.new (tt : TokenType) (start stop : CodePos) : Token :=
  ⟨tt, none, none, start, stop⟩

/-- Token::new_lit. -/
def Token.new_lit (tt : TokenType) (value : String) (start stop : CodePos) : Token :=
  ⟨tt, some value, none, start, stop⟩

/-- Token::new_ident. -/
def Token.new_ident (value : String) (start stop : CodePos) : Token :=
  ⟨.Ident, some value, none, start, stop⟩

/-- Token::new_op. -/
def Token.new_op (op : Operator) (start stop : CodePos) : Token :=
  ⟨.Operator, none, some op, start, stop⟩

/-- The token cursor, from src/token.rs struct TokenList (iter_place is
used only by the Iterator impl, which the parser never touches, and is
dropped). -/
structure TokenList where
  tokens : List Token
  eof_loc : CodePos
deriving DecidableEq, Repr

/-- TokenList::new: remembers the last token's start as the EOF location
(the Rust unwrap on an empty list is rendered with a default). -/
def TokenList.new (tokens : List Token) : TokenList :=
  ⟨tokens, ((tokens.getLast?).map (·.start)).getD CodePos.dflt⟩

/-- TokenList::eof. -/
def TokenList.eof (tl : TokenList) : CodePos := tl.eof_loc

/-- TokenList::peek (peek_nth 0). -/
def TokenList.peek (tl : TokenList) : Option Token := tl.tokens.head?

/-- TokenList::consume (consume_nth 0): the removed token and the rest. -/
def TokenList.consume (tl : TokenList) : Option Token × TokenList :=
  match tl.tokens with
  | [] => (none, tl)
  | t :: rest => (some t, { tl with tokens := rest })

/-- TokenList::is_empty. -/
def TokenList.is_empty (tl : TokenList) : Bool := tl.tokens.isEmpty

/-- The loop body of TokenList::optional_whitespace on the raw list. -/
def skipWs : List Token → List Token
  | [] => []
  | t :: ts => if t.token_type = .Whitespace then skipWs ts else t :: ts

/-- TokenList::optional_whitespace: drop leading Whitespace tokens. -/
def TokenList.optional_whitespace (tl : TokenList) : TokenList :=
  { tl with tokens := skipWs tl.tokens }

/-- TokenList::expect_whitespace. -/
def TokenList.expect_whitespace (tl : TokenList) : Except Error (Token × TokenList) :=
  match tl.consume with
  | (none, tl1) => .error (Error.new "Unexpected EOF" "expected Whitespace" tl1.eof)
  | (some token, tl1) =>
    if token.token_type ≠ .Whitespace then
      .error (Error.new "Unexpected token" "expected Whitespace" token.start)
    else
      .ok (token, tl1.optional_whitespace)

/-- TokenList::expect. -/
def TokenList.expect (tl : TokenList) (tt : TokenType) : Except Error (Token × TokenList) :=
  if tt = .Whitespace then tl.expect_whitespace
  else
    let tl := tl.optional_whitespace
    match tl.consume with
    | (none, tl1) => .error (Error.new "Unexpected EOF" ("expected " ++ tt.display) tl1.eof)
    | (some token, tl1) =>
      if token.token_type ≠ tt then
        .error (Error.new "Unexpected token" ("expected " ++ tt.display) token.start)
      else .ok (token, tl1)

/-- TokenList::optional_expect. The Rust signature returns Result but
every path yields Ok, so it is rendered as a pure function. -/
def TokenList.optional_expect (tl : TokenList) (tt : TokenType) : Option Token × TokenList :=
  if tt ≠ .Whitespace then
    let tl := tl.optional_whitespace
    match tl.peek with
    | none => (none, tl)
    | some t => if t.token_type = tt then ((tl.consume).1, (tl.consume).2) else (none, tl)
  else
    match tl.peek with
    | some t =>
      if t.token_type = .Whitespace then (some t, ((tl.consume).2).optional_whitespace)
      else (none, tl)
    | none => (none, tl)

/-- TokenList::expect_op. Note the requested operator argument is never
compared: any Operator token satisfies it (the token.op.unwrap() on a
payload-free Operator token, a Rust panic, is rendered with a default;
the lexer always fills op on Operator tokens). -/
def TokenList.expect_op (tl : TokenList) (_op : Operator) : Except Error (Operator × TokenList) := do
  let (token, tl1) ← tl.expect .Operator
  .ok (token.op.getD .Add, tl1)

/-- TokenList::optional_op. As with expect_op, the argument is unused.
The Rust Result is always Ok, so it is rendered as a pure function. -/
def TokenList.optional_op (tl : TokenList) (_op : Operator) : Option Operator × TokenList :=
  match tl.optional_expect .Operator with
  | (some t, tl1) => (some (t.op.getD .Add), tl1)
  | (none, tl1) => (none, tl1)

/-- TokenList::next_is: no whitespace is skipped. -/
def TokenList.next_is (tl : TokenList) (tt : TokenType) : Bool :=
  ((tl.peek).map (fun t => t.token_type == tt)).getD false

/-- Modelled from the spec: TokenList::next_after_ws is called by
src/parser.rs (parse_return, parse_panic) but absent from src/token.rs;
the spec says these sites test whether the next non-whitespace token has
the given kind, without consuming anything. -/
def TokenList.next_after_ws (tl : TokenList) (tt : TokenType) : Bool :=
  (((skipWs tl.tokens).head?).map (fun t => t.token_type == tt)).getD false

/-- Modelled from the spec: TokenList::peek_loc is called by
src/parser.rs (define_params) but absent from src/token.rs; it is the
next token's start position. -/
def TokenList.peek_loc (tl : TokenList) : Option CodePos :=
  (tl.peek).map (·.start)

/-- Character reader, from src/input_reader.rs struct InputReader. -/
structure InputReader where
  stream : List Char
  pos : CodePos
deriving DecidableEq, Repr

/-- InputReader::new. -/
def InputReader.new (file : Option String) (input : String) : InputReader :=
  ⟨input.data, match file with | some f => ⟨some f, 1, 1⟩ | none => CodePos.dflt⟩

/-- The position update of InputReader::consume: always next, then
newline when the consumed character is a line feed. -/
def posAdvance (p : CodePos) (c : Char) : CodePos :=
  let q := p.next
  if c = '\n' then q.newline else q

/-- InputReader::consume. -/
def InputReader.consume (r : InputReader) : Option Char × InputReader :=
  match r.stream with
  | [] => (none, r)
  | c :: rest => (some c, ⟨rest, posAdvance r.pos c⟩)

/-- InputReader::peek_at. -/
def InputReader.peek_at (r : InputReader) (n : Nat) : Option Char := r.stream.get? n

/-- InputReader::peek. -/
def InputReader.peek (r : InputReader) : Option Char := r.peek_at 0

/-! The lexer, src/lexer.rs. The character-consuming loops inside it are
rendered as structural recursion over the remaining character list,
threading the position. -/

/-- The loop of next_ident / lex_hex_lit / lex_bin_lit: consume while the
predicate holds, returning consumed characters, rest, and new position. -/
def scanWhile (f : Char → Bool) : List Char → CodePos → List Char × List Char × CodePos
  | [], p => ([], [], p)
  | c :: rest, p =>
    if f c then
      let (s, r, q) := scanWhile f rest (posAdvance p c)
      (c :: s, r, q)
    else ([], c :: rest, p)

/-- next_ident: scan alphanumeric or underscore characters. -/
def next_ident (r : InputReader) : String × InputReader :=
  let (s, rest, q) := scanWhile (fun c => c.isAlphanum || c = '_') r.stream r.pos
  (⟨s⟩, ⟨rest, q⟩)

/-- The digit class of lex_hex_lit: 0-9, a-f (97..102), A-F (65..70). -/
def isHexDigit (c : Char) : Bool :=
  c.isDigit || ('a' ≤ c && c ≤ 'f') || ('A' ≤ c && c ≤ 'F')

/-- lex_hex_lit: consume the 0 and the x, then hex digits. -/
def lex_hex_lit (r : InputReader) : Except Error (Token × InputReader) :=
  let start := r.pos
  let r1 := (r.consume).2
  let r2 := (r1.consume).2
  let (s, rest, q) := scanWhile isHexDigit r2.stream r2.pos
  .ok (Token.new_lit .HexLit ⟨s⟩ start q, ⟨rest, q⟩)

/-- lex_bin_lit: consume the 0 and the b, then binary digits. -/
def lex_bin_lit (r : InputReader) : Except Error (Token × InputReader) :=
  let start := r.pos
  let r1 := (r.consume).2
  let r2 := (r1.consume).2
  let (s, rest, q) := scanWhile (fun c => c = '1' || c = '0') r2.stream r2.pos
  .ok (Token.new_lit .BinLit ⟨s⟩ start q, ⟨rest, q⟩)

/-- The loop of next_numeric: digits, with the dot lookahead that rejects
decimal literals and stops before a property access. The first CodePos is
the current position, the second the recorded start (for errors). -/
def scanNumeric : List Char → CodePos → CodePos → Except Error (List Char × List Char × CodePos)
  | [], p, _ => .ok ([], [], p)
  | c :: rest, p, start =>
    if c.isDigit then do
      let (s, r, q) ← scanNumeric rest (posAdvance p c) start
      .ok (c :: s, r, q)
    else if c = '.' then
      match rest.head? with
      | none => .error (Error.new "Unexpected token at EOF" ("Found " ++ c.toString) start)
      | some nxt =>
        if nxt.isDigit then
          .error (Error.new "Unexpected Token" "Decimals/floating point numbers are not yet supported!" p)
        else .ok ([], c :: rest, p)
    else .ok ([], c :: rest, p)

/-- next_numeric. -/
def next_numeric (r : InputReader) : Except Error (String × InputReader) := do
  let (s, rest, q) ← scanNumeric r.stream r.pos r.pos
  .ok (⟨s⟩, ⟨rest, q⟩)

/-- The loop of the string-literal arm of next_token: consume until a
closing quote; after consuming a content character, a now-empty input is
the unterminated error. Note that an opening quote directly at EOF falls
out of the loop and is returned as an (empty) string literal. -/
def scanString : List Char → CodePos → CodePos → Except Error (List Char × List Char × CodePos)
  | [], p, _ => .ok ([], [], p)
  | c :: rest, p, start =>
    if c = '"' then .ok ([], rest, posAdvance p c)
    else
      let p1 := posAdvance p c
      if rest.isEmpty then
        .error (Error.new "String literal with no close" "Reached EOF before finding closing '\"'" start)
      else do
        let (s, r, q) ← scanString rest p1 start
        .ok (c :: s, r, q)

/-- The line-comment loop of the slash arm: consume through the next line
feed, emitting nothing. -/
def scanLineComment : List Char → CodePos → List Char × CodePos
  | [], p => ([], p)
  | c :: rest, p =>
    if c = '\n' then (rest, posAdvance p c)
    else scanLineComment rest (posAdvance p c)

/-- The block-comment loop of the slash arm: consume through the next
star-slash pair (or to EOF). -/
def scanBlockComment : List Char → CodePos → List Char × CodePos
  | [], p => ([], p)
  | c :: rest, p =>
    if c = '*' then
      let p1 := posAdvance p c
      match rest with
      | '/' :: rest2 => (rest2, posAdvance p1 '/')
      | _ => scanBlockComment rest p1
    else scanBlockComment rest (posAdvance p c)

/-- lex_op_other. -/
def lex_op_other (r : InputReader) (other : Operator) (secondary : Char) :
    Option Operator × InputReader :=
  match r.peek with
  | some next => if next = secondary then (some other, (r.consume).2) else (none, r)
  | none => (none, r)

/-- lex_op_or. -/
def lex_op_or (r : InputReader) (norm other : Operator) (secondary : Char) :
    Operator × InputReader :=
  match lex_op_other r other secondary with
  | (some o, r2) => (o, r2)
  | (none, r2) => (norm, r2)

/-- lex_op. -/
def lex_op (r : InputReader) (norm assign : Operator) : Operator × InputReader :=
  lex_op_or r norm assign '='

/-- next_token, src/lexer.rs. The Rust function starts with a peek
unwrap; the empty-input case (a panic, never reached from lex) is
rendered as an artificial error. -/
def next_token (input : InputReader) : Except Error (Token × InputReader) :=
  match input.stream with
  | [] => .error (Error.new_singular "panic: next_token on empty input" input.pos)
  | next :: _ =>
    let start := input.pos
    if next = ' ' || next = '\n' || next = '\t' then
      let r := (input.consume).2
      .ok (Token.new .Whitespace start r.pos, r)
    else if next = ';' then
      let r := (input.consume).2
      .ok (Token.new .NOP start r.pos, r)
    else if next = '(' then
      let r := (input.consume).2
      .ok (Token.new .OpenParen start r.pos, r)
    else if next = ')' then
      let r := (input.consume).2
      .ok (Token.new .CloseParen start r.pos, r)
    else if next = '{' then
      let r := (input.consume).2
      .ok (Token.new .OpenBracket start r.pos, r)
    else if next = '}' then
      let r := (input.consume).2
      .ok (Token.new .CloseBracket start r.pos, r)
    else if next = '[' then
      let r := (input.consume).2
      .ok (Token.new .OpenBrace start r.pos, r)
    else if next = ']' then
      let r := (input.consume).2
      .ok (Token.new .CloseBrace start r.pos, r)
    else if next = ',' then
      let r := (input.consume).2
      .ok (Token.new .Comma start r.pos, r)
    else if next = '@' then
      let r := (input.consume).2
      .ok (Token.new .Interrupt start r.pos, r)
    else if next = '?' then
      let r := (input.consume).2
      .ok (Token.new .Panic start r.pos, r)
    else if next = ':' then
      let r := (input.consume).2
      match r.peek with
      | some c =>
        if c = ':' then
          let r2 := (r.consume).2
          .ok (Token.new .DoubleColon start r2.pos, r2)
        else .ok (Token.new .Colon start r.pos, r)
      | none => .ok (Token.new .Colon start r.pos, r)
    else if next = '.' then
      let r := (input.consume).2
      match r.peek with
      | some c =>
        if c = '.' then
          let r2 := (r.consume).2
          match r2.peek with
          | some c2 =>
            if c2 = '=' then
              let r3 := (r2.consume).2
              .ok (Token.new_op .IRange start r3.pos, r3)
            else .ok (Token.new_op .Range start r2.pos, r2)
          | none => .ok (Token.new_op .Range start r2.pos, r2)
        else .ok (Token.new .Dot start r.pos, r)
      | none => .ok (Token.new .Dot start r.pos, r)
    else if next = '"' then do
      let r := (input.consume).2
      let (s, rest, q) ← scanString r.stream r.pos start
      .ok (Token.new_lit .StringLit ⟨s⟩ start q, ⟨rest, q⟩)
    else if next = '\'' then
      let r := (input.consume).2
      match r.consume with
      | (none, _) =>
        .error (Error.new "Character literal with no close" "Reached EOF before finding closing '\''" start)
      | (some charlit, r2) =>
        match r2.consume with
        | (none, _) =>
          .error (Error.new "Character literal with no close" "Reached EOF before finding closing '\''" start)
        | (some close, r3) =>
          if close ≠ '\'' then
            .error (Error.new "Character literal with no close"
              ("Found '" ++ close.toString ++ "' instead of closing '\''") start)
          else .ok (Token.new_lit .CharLit charlit.toString start r3.pos, r3)
    else if next = '+' then
      let r := (input.consume).2
      match lex_op_other r .Inc '+' with
      | (some op, r2) => .ok (Token.new_op op start r2.pos, r2)
      | (none, r2) =>
        let (o, r3) := lex_op r2 .Add .AddAssign
        .ok (Token.new_op o start r3.pos, r3)
    else if next = '-' then
      let r := (input.consume).2
      match lex_op_other r .Dec '-' with
      | (some op, r2) => .ok (Token.new_op op start r2.pos, r2)
      | (none, r2) =>
        match lex_op_other r2 .Move '>' with
        | (some op, r3) => .ok (Token.new_op op start r3.pos, r3)
        | (none, r3) =>
          let (o, r4) := lex_op r3 .Sub .SubAssign
          .ok (Token.new_op o start r4.pos, r4)
    else if next = '*' then
      let r := (input.consume).2
      let (o, r2) := lex_op r .Mul .MulAssign
      .ok (Token.new_op o start r2.pos, r2)
    else if next = '/' then
      let r := (input.consume).2
      match r.peek with
      | some c =>
        if c = '/' then
          let r2 := (r.consume).2
          let (rest, q) := scanLineComment r2.stream r2.pos
          .ok (Token.new .Whitespace start q, ⟨rest, q⟩)
        else if c = '*' then
          let r2 := (r.consume).2
          let (rest, q) := scanBlockComment r2.stream r2.pos
          .ok (Token.new .Whitespace start q, ⟨rest, q⟩)
        else
          let (o, r2) := lex_op r .Div .DivAssign
          .ok (Token.new_op o start r2.pos, r2)
      | none =>
        let (o, r2) := lex_op r .Div .DivAssign
        .ok (Token.new_op o start r2.pos, r2)
    else if next = '%' then
      let r := (input.consume).2
      let (o, r2) := lex_op r .Mod .ModAssign
      .ok (Token.new_op o start r2.pos, r2)
    else if next = '^' then
      let r := (input.consume).2
      let (o, r2) := lex_op r .Xor .XorAssign
      .ok (Token.new_op o start r2.pos, r2)
    else if next = '&' then
      let r := (input.consume).2
      match lex_op_other r .BoolAnd '&' with
      | (some op, r2) => .ok (Token.new_op op start r2.pos, r2)
      | (none, r2) =>
        let (o, r3) := lex_op r2 .And .AndAssign
        .ok (Token.new_op o start r3.pos, r3)
    else if next = '|' then
      let r := (input.consume).2
      match lex_op_other r .BoolOr '|' with
      | (some op, r2) => .ok (Token.new_op op start r2.pos, r2)
      | (none, r2) =>
        let (o, r3) := lex_op r2 .Or .OrAssign
        .ok (Token.new_op o start r3.pos, r3)
    else if next = '=' then
      let r := (input.consume).2
      match lex_op_other r .Right '>' with
      | (some op, r2) => .ok (Token.new_op op start r2.pos, r2)
      | (none, r2) =>
        let (o, r3) := lex_op r2 .Assign .Eq
        .ok (Token.new_op o start r3.pos, r3)
    else if next = '<' then
      let r := (input.consume).2
      match lex_op_other r .Shl '<' with
      | (some op, r2) =>
        let (slu, r3) := lex_op_or r2 op .Shlu '<'
        if slu = op then
          let (o, r4) := lex_op_or r3 op .ShlAssign '='
          .ok (Token.new_op o start r4.pos, r4)
        else .ok (Token.new_op slu start r3.pos, r3)
      | (none, r2) =>
        -- the source swaps: a plain less-than lexes to Gt / Gte
        let (o, r3) := lex_op r2 .Gt .Gte
        .ok (Token.new_op o start r3.pos, r3)
    else if next = '>' then
      let r := (input.consume).2
      match lex_op_other r .Shr '>' with
      | (some op, r2) =>
        let (sru, r3) := lex_op_or r2 op .Shru '>'
        if sru = op then
          let (o, r4) := lex_op_or r3 op .ShrAssign '='
          .ok (Token.new_op o start r4.pos, r4)
        else .ok (Token.new_op sru start r3.pos, r3)
      | (none, r2) =>
        -- the source swaps: a plain greater-than lexes to Lt / Lte
        let (o, r3) := lex_op r2 .Lt .Lte
        .ok (Token.new_op o start r3.pos, r3)
    else if next = '!' then
      let r := (input.consume).2
      let (o, r2) := lex_op r .Not .Neq
      .ok (Token.new_op o start r2.pos, r2)
    else if next = '0' then
      match input.peek_at 1 with
      | some c =>
        if c = 'x' then lex_hex_lit input
        else if c = 'b' then lex_bin_lit input
        else do
          let (num, r) ← next_numeric input
          .ok (Token.new_lit .NumberLit num start r.pos, r)
      | none => do
        let (num, r) ← next_numeric input
        .ok (Token.new_lit .NumberLit num start r.pos, r)
    else if next.isAlpha || next = '_' then
      let (ident, r) := next_ident input
      match ident with
      | "fn" => .ok (Token.new .Fn start r.pos, r)
      | "let" => .ok (Token.new .Let start r.pos, r)
      | "if" => .ok (Token.new .If start r.pos, r)
      | "else" => .ok (Token.new .Else start r.pos, r)
      | "while" => .ok (Token.new .While start r.pos, r)
      | "for" => .ok (Token.new .For start r.pos, r)
      | "loop" => .ok (Token.new .Loop start r.pos, r)
      | "return" => .ok (Token.new .Return start r.pos, r)
      | "match" => .ok (Token.new .Match start r.pos, r)
      | "struct" => .ok (Token.new .Struct start r.pos, r)
      | "assert" => .ok (Token.new .Assert start r.pos, r)
      | "in" => .ok (Token.new .In start r.pos, r)
      | "use" => .ok (Token.new .Use start r.pos, r)
      | "true" => .ok (Token.new .BoolTrue start r.pos, r)
      | "false" => .ok (Token.new .BoolFalse start r.pos, r)
      | _ => .ok (Token.new_ident ident start r.pos, r)
    else if next.isDigit then do
      let (num, r) ← next_numeric input
      .ok (Token.new_lit .NumberLit num start r.pos, r)
    else
      .error (Error.new "Unexpected character" ("Found '" ++ next.toString ++ "'") start)

/-- The loop of lex: one token per iteration while input remains. Every
arm of next_token consumes at least one character, so stream length is a
fuel bound; running out is an artificial error that the bound used by lex
makes unreachable. -/
def lexGo : Nat → InputReader → Except Error (List Token × InputReader)
  | 0, input => .error (Error.new_singular "lexer fuel exhausted" input.pos)
  | fuel + 1, input =>
    match input.peek with
    | none => .ok ([], input)
    | some _ => do
      let (t, input1) ← next_token input
      let (ts, input2) ← lexGo fuel input1
      .ok (t :: ts, input2)

/-- lex, src/lexer.rs: all tokens, then a terminal EOF token. -/
def lex (input : InputReader) : Except Error TokenList := do
  let (ts, input1) ← lexGo (input.stream.length + 1) input
  .ok (TokenList.new (ts ++ [Token.new .EOF input1.pos input1.pos]))

/-! The AST, src/statement.rs. -/

/-- Number literal payload, from src/statement.rs struct Number. -/
structure Number where
  value : String
  negative : Bool
deriving DecidableEq, Repr

/-- Number::new. -/
def Number.new (value : String) (negative : Bool) : Number := ⟨value, negative⟩

mutual
/-- AST nodes, from src/statement.rs enum Statement. The field names and
order follow the Rust declaration; the ShuntedStack wrapper is its item
list. -/
inductive Statement where
  | Program (exprs : List Statement)
  | Use (exprs : List Statement)
  | Block (exprs : List Statement)
  | Fn (ident : Statement) (params : List Statement) (return_type : Statement) (body : Statement)
  | FnCall (ident : Statement) (params : List Statement)
  | If (condition : Statement) (body : Statement) (else_statement : Option Statement)
  | Return (value : Statement)
  | Postfix (stack : List ShuntedStackItem)
  | Panic (value : Statement)
  | Assert (expr : Statement)
  | Declaration (ident : Statement) (type_ident : Option Statement) (value : Option Statement)
  | Assignment (ident : Statement) (value : Statement)
  | PropertyAccess (expr : Statement) (property : Statement)
  | ArrayAccess (ident : Statement) (index : Statement)
  | While (condition : Statement) (body : Statement)
  | For (ident : Statement) (collection : Statement) (body : Statement)
  | Loop (body : Statement)
  | Break
  | Continue
  | Type (modifiers : List Statement) (type_ident : Statement)
  | ArrayType (array_type : Statement) (size : Statement) (modifiers : List Statement)
  | Identifier (ident : String)
  | StringLiteral (value : String)
  | NumberLiteral (value : Number)
  | BinaryLiteral (value : String)
  | HexLiteral (value : String)
  | CharLiteral (value : Char)
  | BoolLiteral (value : Bool)
  | Reference
  | Pointer
  | NOP
  | Void
deriving Repr

/-- Shunted-stack items, from src/statement.rs struct ShuntedStackItem:
the Rust struct holds two Options of which the two smart constructors
new_operator and new_operand (the only ways the code builds one) fill
exactly one, so it is rendered as this sum. -/
inductive ShuntedStackItem where
  | new_operator (op : Operator)
  | new_operand (operand : Statement)
deriving Repr
end

/-- Display for Operator, from src/operator.rs (used verbatim in parser
error messages). -/
def Operator.display : Operator → String
  | .Add => "Add `+`"
  | .Sub => "Sub `-`"
  | .Mul => "Mul `*`"
  | .Div => "Div `/`"
  | .Mod => "Mod `%`"
  | .Xor => "XOr `^`"
  | .And => "And `&`"
  | .Or => "Or `|`"
  | .Assign => "Assign `=`"
  | .Eq => "Eq `==`"
  | .Neq => "NEq`!=`"
  | .Lt => "Lt `<`"
  | .Lte => "Lte `<=`"
  | .Gt => "Gt `>`"
  | .Gte => "Gte `>=`"
  | .BoolAnd => "BoolAnd `&&`"
  | .BoolOr => "BoolOr `||`"
  | .Not => "Not `!`"
  | .MulAssign => "MulAssign `*=`"
  | .DivAssign => "DivAssign `/=`"
  | .ModAssign => "ModAssign `%=`"
  | .AddAssign => "AddAssign `+=`"
  | .SubAssign => "SubAssign `-=`"
  | .XorAssign => "XorAssign `^=`"
  | .AndAssign => "AndAssign `&=`"
  | .OrAssign => "OrAssign `|=`"
  | .Shl => "Shl `<<`"
  | .Shr => "Shr `>>`"
  | .ShlAssign => "ShlAssign `<<=`"
  | .ShrAssign => "ShrAssign `>>=`"
  | .Shlu => "Shlu `<<<`"
  | .Shru => "Shru `>>>`"
  | .Move => "Move `->`"
  | .Inc => "Inc `++`"
  | .Dec => "Dec `--`"
  | .Right => "Right `=>`"
  | .Range => "Range `..`"
  | .IRange => "InclusiveRange `..=`"

/-! File-system plumbing used by use-imports, src/main.rs. The file
system itself is external to the program and is passed in as a map from
path to contents (none: the path does not exist as a file). -/

/-- The file-system oracle: contents per existing file path. -/
def FileSys : Type := String → Option String

/-- The empty file system, under which every import fails. -/
def fsEmpty : FileSys := fun _ => none

/-- validate_file, src/main.rs: failure when the path does not exist (the
exists and is_file checks both collapse to oracle membership). -/
def validate_file (fs : FileSys) (file : String) : Except String Unit :=
  if (fs file).isNone then .error ("File " ++ file ++ " does not exist")
  else .ok ()

/-- std Path::extension on the textual path: the part of the final
component after its last dot; none when there is no dot or the only dot
leads a hidden file name. -/
def pathExtension (f : String) : Option String :=
  let name := ((f.splitOn "/").getLast?).getD f
  match name.splitOn "." with
  | [] => none
  | [_] => none
  | "" :: [_] => none
  | parts => parts.getLast?

/-- validate_boulder_file, src/main.rs. The extension().unwrap() on an
extension-free path is a Rust panic, rendered as an error string. -/
def validate_boulder_file (fs : FileSys) (file : String) : Except String Unit := do
  validate_file fs file
  match pathExtension file with
  | some ext =>
    if ext ≠ "rock" then .error ("File " ++ file ++ " is not a boulder file")
    else .ok ()
  | none => .error "panic: extension on extension-free path"

/-- read_file, src/main.rs: a failing read warns on the console and
substitutes the empty string. -/
def read_file (fs : FileSys) (path : String) : String := (fs path).getD ""

/-- std Path::parent rendered on the textual path (used by parse_use to
resolve an import relative to the importing file). -/
def parentDir (dir : String) : String :=
  String.intercalate "/" ((dir.splitOn "/").dropLast)

/-! The parser, src/parser.rs. Each function takes the fuel described at
the top of the file; the non-recursive shunting-yard stack loops recurse
structurally and take none. The operator stack op_stack is kept with its
top at the list head (Rust pushes and pops at the Vec tail). -/

/-- The artificial fuel-exhaustion error (never reached at the bounds the
theorems use). -/
def fuelError {α : Type} (tl : TokenList) : Except Error α :=
  .error (Error.new_singular "parser fuel exhausted" tl.eof)

/-- parse_shunting_yard_leading_op: a leading minus only sets the
negative flag; a leading increment or decrement pushes the operator Add
or Sub and then the operand 1; anything else is the unexpected-operator
error. -/
def parse_shunting_yard_leading_op (op : Token) (stack : List ShuntedStackItem) :
    Except Error (Bool × List ShuntedStackItem) :=
  match op.op.getD .Add with
  | .Sub => .ok (true, stack)
  | .Inc => .ok (false, stack ++ [.new_operator .Add, .new_operand (.NumberLiteral ⟨"1", false⟩)])
  | .Dec => .ok (false, stack ++ [.new_operator .Sub, .new_operand (.NumberLiteral ⟨"1", false⟩)])
  | _ => .error (Error.new "Unexpected operator" "found binary operator after another binary operator" op.start)

/-- The operator-popping loop of the shunting-yard Operator arm: stop on
an open paren or when the stacked precedence is less than or equal to the
incoming one under the Rust Option ordering; otherwise pop to the
postfix output. -/
def sy_pop_ops (operator : Operator) : List Token → List ShuntedStackItem →
    Except Error (List ShuntedStackItem × List Token)
  | [], stack => .ok (stack, [])
  | o2_token :: rest, stack =>
    if o2_token.token_type = .OpenParen then .ok (stack, o2_token :: rest)
    else if o2_token.token_type ≠ .Operator then
      .error (Error.new_singular "unexpected error found in op_stack during shunting yard algorithm" o2_token.start)
    else
      let o2 := o2_token.op.getD .Add
      if optLe o2.precedence operator.precedence then .ok (stack, o2_token :: rest)
      else sy_pop_ops operator rest (stack ++ [.new_operator o2])

/-- The close-paren arm loop: pop operators to the output until an open
paren is found; the flag records whether one was. -/
def sy_close_paren : List Token → List ShuntedStackItem → CodePos →
    Except Error (Bool × List ShuntedStackItem × List Token)
  | [], stack, _ => .ok (false, stack, [])
  | op :: rest, stack, pos =>
    if op.token_type = .OpenParen then .ok (true, stack, rest)
    else if op.token_type ≠ .Operator then
      .error (Error.new_singular "unexpected error found in op_stack during shunting yard algorithm" pos)
    else sy_close_paren rest (stack ++ [.new_operator (op.op.getD .Add)]) pos

/-- The final drain of the operator stack: a leftover open paren is the
mismatched-parentheses error; operators are appended to the output. -/
def sy_drain : List Token → List ShuntedStackItem → CodePos →
    Except Error (List ShuntedStackItem)
  | [], stack, _ => .ok stack
  | op :: rest, stack, pos =>
    if op.token_type = .OpenParen then
      .error (Error.new "Open found with no close" "mismatched parentheses" op.start)
    else if op.token_type ≠ .Operator then
      .error (Error.new_singular "unexpected error found in op_stack during shunting yard algorithm" pos)
    else sy_drain rest (stack ++ [.new_operator (op.op.getD .Add)]) pos

mutual

/-- parse_block: consume the open bracket, then statements until the
closing bracket. -/
def parse_block (fs : FileSys) : Nat → TokenList → Except Error (Statement × TokenList)
  | 0, tl => fuelError tl
  | fuel + 1, tokens => parse_block_loop fs fuel ((tokens.consume).2) []

/-- The statement loop of parse_block. -/
def parse_block_loop (fs : FileSys) : Nat → TokenList → List Statement →
    Except Error (Statement × TokenList)
  | 0, tl, _ => fuelError tl
  | fuel + 1, tokens, exprs =>
    match tokens.peek with
    | none => .ok (.Block exprs, tokens)
    | some token =>
      if token.token_type = .Whitespace then
        parse_block_loop fs fuel ((tokens.consume).2) exprs
      else if token.token_type = .CloseBracket then
        .ok (.Block exprs, (tokens.consume).2)
      else do
        let (s, tokens1) ← parse_statement fs fuel tokens
        parse_block_loop fs fuel tokens1 (exprs ++ [s])

/-- parse_array_dec. -/
def parse_array_dec (fs : FileSys) : Nat → TokenList → List Statement →
    Except Error (Statement × TokenList)
  | 0, tl, _ => fuelError tl
  | fuel + 1, tokens, mods => do
    let (_, tokens) ← tokens.expect .OpenBracket
    let (array_type, tokens) ← get_type fs fuel tokens false
    let (_, tokens) ← tokens.expect .NOP
    let (size, tokens) ← parse_global fs fuel tokens
    let (_, tokens) ← tokens.expect .CloseBracket
    .ok (.ArrayType array_type size mods, tokens)

/-- get_type: optional colon, modifier operators, then an array type or a
plain identifier type. -/
def get_type (fs : FileSys) : Nat → TokenList → Bool → Except Error (Statement × TokenList)
  | 0, tl, _ => fuelError tl
  | fuel + 1, tokens, expect_colon => do
    let tokens ←
      if expect_colon then do
        let (_, tokens1) ← tokens.expect .Colon
        pure tokens1
      else pure tokens
    let (modifiers, tokens) ← get_type_mods fs fuel tokens []
    match tokens.optional_expect .OpenBracket with
    | (some _, tokens) => parse_array_dec fs fuel tokens modifiers
    | (none, tokens) => do
      let (t, tokens) ← tokens.expect .Ident
      .ok (.Type modifiers (.Identifier (t.value.getD "")), tokens)

/-- The modifier loop of get_type: ampersand is Reference, star is
Pointer, any other operator is an error. -/
def get_type_mods (fs : FileSys) : Nat → TokenList → List Statement →
    Except Error (List Statement × TokenList)
  | 0, tl, _ => fuelError tl
  | fuel + 1, tokens, modifiers =>
    match tokens.optional_expect .Operator with
    | (some op, tokens1) =>
      match op.op.getD .Add with
      | .And => get_type_mods fs fuel tokens1 (modifiers ++ [.Reference])
      | .Mul => get_type_mods fs fuel tokens1 (modifiers ++ [.Pointer])
      | o => .error (Error.new "Expected &, *, [...], or nothing" ("found " ++ o.display) op.start)
    | (none, tokens1) => .ok (modifiers, tokens1)

/-- define_params. -/
def define_params (fs : FileSys) : Nat → TokenList → Except Error (List Statement × TokenList)
  | 0, tl => fuelError tl
  | fuel + 1, tokens => do
    let (_, tokens) ← tokens.expect .OpenParen
    let (params, tokens) ← define_params_loop fs fuel tokens []
    let (_, tokens) ← tokens.expect .CloseParen
    .ok (params, tokens)

/-- The parameter loop of define_params: an identifier, its type, then an
error on a default value, else the declaration; continue on a comma. -/
def define_params_loop (fs : FileSys) : Nat → TokenList → List Statement →
    Except Error (List Statement × TokenList)
  | 0, tl, _ => fuelError tl
  | fuel + 1, tokens, params =>
    match tokens.optional_expect .Ident with
    | (none, tokens) => .ok (params, tokens)
    | (some ident, tokens) => do
      let (param_type, tokens) ← get_type fs fuel tokens true
      let tokens := tokens.optional_whitespace
      if tokens.is_empty then
        .error (Error.new "Expected parameter or closing ')'" "Found end of file" tokens.eof)
      else
        let next_loc := (tokens.peek_loc).getD tokens.eof
        match tokens.optional_op .Assign with
        | (some _, _) =>
          .error (Error.new "Invalid Assignment" "Default parameter values are not yet supported!" next_loc)
        | (none, tokens) =>
          let params := params ++
            [Statement.Declaration (.Identifier (ident.value.getD "")) (some param_type) none]
          match tokens.optional_expect .Comma with
          | (none, tokens) => .ok (params, tokens)
          | (some _, tokens) => define_params_loop fs fuel tokens params

/-- parse_fn: fn, whitespace, name, parameters, optional arrow return
type, body. -/
def parse_fn (fs : FileSys) : Nat → TokenList → Except Error (Statement × TokenList)
  | 0, tl => fuelError tl
  | fuel + 1, tokens => do
    let tokens := (tokens.consume).2
    let (_, tokens) ← tokens.expect_whitespace
    let (name, tokens) ← tokens.expect .Ident
    let (params, tokens) ← define_params fs fuel tokens
    let (mv, tokens) := tokens.optional_op .Move
    let (rt, tokens) ←
      match mv with
      | some _ => get_type fs fuel tokens false
      | none => pure (Statement.Void, tokens)
    let (body, tokens) ← parse_statement fs fuel tokens
    .ok (.Fn (.Identifier (name.value.getD "")) params rt body, tokens)

/-- parse_declaration: let, whitespace, name, mandatory type, optional
initializer. -/
def parse_declaration (fs : FileSys) : Nat → TokenList → Except Error (Statement × TokenList)
  | 0, tl => fuelError tl
  | fuel + 1, tokens => do
    let tokens := (tokens.consume).2
    let (_, tokens) ← tokens.expect_whitespace
    let (ident, tokens) ← tokens.expect .Ident
    let (def_type, tokens) ←
      match tokens.optional_expect .Colon with
      | (some _, tokens1) => do
        let (t, tokens2) ← get_type fs fuel tokens1 false
        pure (some t, tokens2)
      | (none, tokens1) =>
        -- the Rust peek().unwrap() panics on an empty list; rendered with the EOF position
        .error (Error.new "Inferred types are not yet implemented!" "Variable types must be defined!"
          (((tokens1.peek).map (·.start)).getD tokens1.eof))
    let (def_value, tokens) ←
      match tokens.optional_op .Assign with
      | (some _, tokens1) => do
        let (v, tokens2) ← parse_statement fs fuel tokens1
        pure (some v, tokens2)
      | (none, tokens1) => pure (none, tokens1)
    .ok (.Declaration (.Identifier (ident.value.getD "")) def_type def_value, tokens)

/-- parse_use: use, whitespace, string literal; resolve against the
importing file's directory, validate, then lex and parse the imported
file and wrap its AST. -/
def parse_use (fs : FileSys) : Nat → TokenList → Except Error (Statement × TokenList)
  | 0, tl => fuelError tl
  | fuel + 1, tokens => do
    let tokens := (tokens.consume).2
    let (_, tokens) ← tokens.expect_whitespace
    let (file, tokens) ← tokens.expect .StringLit
    let file_path0 := file.value.getD ""
    let file_path :=
      match file.start.file with
      | some dir => parentDir dir ++ "/" ++ file_path0
      | none => file_path0
    match validate_boulder_file fs file_path with
    | .error e => .error (Error.new "Invalid boulder file import" e file.start)
    | .ok _ => do
      let file_tokens ← lex (InputReader.new (some file_path) (read_file fs file_path))
      let (exprs, _) ← parse_file fs fuel file_tokens
      .ok (.Use exprs, tokens)

/-- parse_if: condition, body, and an else body only when the very next
token (no whitespace skipped) is the else keyword. -/
def parse_if (fs : FileSys) : Nat → TokenList → Except Error (Statement × TokenList)
  | 0, tl => fuelError tl
  | fuel + 1, tokens => do
    let tokens := (tokens.consume).2
    let (condition, tokens) ← parse_statement fs fuel tokens
    let (body, tokens) ← parse_statement fs fuel tokens
    if tokens.next_is .Else then do
      let tokens := (tokens.consume).2
      let (else_body, tokens) ← parse_statement fs fuel tokens
      .ok (.If condition body (some else_body), tokens)
    else
      .ok (.If condition body none, tokens)

/-- parse_while. -/
def parse_while (fs : FileSys) : Nat → TokenList → Except Error (Statement × TokenList)
  | 0, tl => fuelError tl
  | fuel + 1, tokens => do
    let tokens := (tokens.consume).2
    let (condition, tokens) ← parse_statement fs fuel tokens
    let (body, tokens) ← parse_statement fs fuel tokens
    .ok (.While condition body, tokens)

/-- parse_loop. -/
def parse_loop (fs : FileSys) : Nat → TokenList → Except Error (Statement × TokenList)
  | 0, tl => fuelError tl
  | fuel + 1, tokens => do
    let tokens := (tokens.consume).2
    let (body, tokens) ← parse_statement fs fuel tokens
    .ok (.Loop body, tokens)

/-- parse_for. -/
def parse_for (fs : FileSys) : Nat → TokenList → Except Error (Statement × TokenList)
  | 0, tl => fuelError tl
  | fuel + 1, tokens => do
    let tokens := (tokens.consume).2
    let (ident, tokens) ← parse_statement fs fuel tokens
    let (_, tokens) ← tokens.expect .In
    let (collection, tokens) ← parse_statement fs fuel tokens
    let (body, tokens) ← parse_statement fs fuel tokens
    .ok (.For ident collection body, tokens)

/-- parse_return: a close bracket as the next non-whitespace token means
a Void return, else whitespace then the value statement. -/
def parse_return (fs : FileSys) : Nat → TokenList → Except Error (Statement × TokenList)
  | 0, tl => fuelError tl
  | fuel + 1, tokens =>
    let tokens := (tokens.consume).2
    if tokens.next_after_ws .CloseBracket then
      .ok (.Return .Void, tokens.optional_whitespace)
    else do
      let (_, tokens) ← tokens.expect_whitespace
      let (v, tokens) ← parse_statement fs fuel tokens
      .ok (.Return v, tokens)

/-- parse_fn_call: consume the open paren and collect comma-separated
argument statements to the close paren. -/
def parse_fn_call (fs : FileSys) : Nat → TokenList → Statement →
    Except Error (Statement × TokenList)
  | 0, tl, _ => fuelError tl
  | fuel + 1, tokens, ident => parse_fn_call_loop fs fuel ((tokens.consume).2) ident []

/-- The argument loop of parse_fn_call. -/
def parse_fn_call_loop (fs : FileSys) : Nat → TokenList → Statement → List Statement →
    Except Error (Statement × TokenList)
  | 0, tl, _, _ => fuelError tl
  | fuel + 1, tokens, ident, params =>
    match tokens.peek with
    | none => .ok (.FnCall ident params, tokens)
    | some token =>
      if token.token_type = .CloseParen then
        .ok (.FnCall ident params, (tokens.consume).2)
      else do
        let (p, tokens) ← parse_statement fs fuel tokens
        let params := params ++ [p]
        match tokens.optional_expect .Comma with
        | (none, tokens) => do
          let (_, tokens) ← tokens.expect .CloseParen
          .ok (.FnCall ident params, tokens)
        | (some _, tokens) => parse_fn_call_loop fs fuel tokens ident params

/-- parse_property: consume the dot, parse the property identifier
chain, and recurse while dots follow. -/
def parse_property (fs : FileSys) : Nat → TokenList → Statement →
    Except Error (Statement × TokenList)
  | 0, tl, _ => fuelError tl
  | fuel + 1, tokens, accessed => do
    let tokens := (tokens.consume).2
    let (property, tokens) ← parse_identifier fs fuel tokens true
    let expr := Statement.PropertyAccess accessed property
    if tokens.next_is .Dot then parse_property fs fuel tokens expr
    else .ok (expr, tokens)

/-- parse_index: array indexing. -/
def parse_index (fs : FileSys) : Nat → TokenList → Statement →
    Except Error (Statement × TokenList)
  | 0, tl, _ => fuelError tl
  | fuel + 1, tokens, accessed =>
    let tokens := (tokens.consume).2
    if (tokens.peek).isNone then
      .error (Error.new "Expected closing ']'" "found end of file" tokens.eof)
    else do
      let (index, tokens) ← parse_statement fs fuel tokens
      let (_, tokens) ← tokens.expect .CloseBrace
      .ok (.ArrayAccess accessed index, tokens)

/-- parse_assert. -/
def parse_assert (fs : FileSys) : Nat → TokenList → Except Error (Statement × TokenList)
  | 0, tl => fuelError tl
  | fuel + 1, tokens => do
    let tokens := (tokens.consume).2
    let (assertion, tokens) ← parse_statement fs fuel tokens
    .ok (.Assert assertion, tokens)

/-- shunting_yard: optional leading operand, optional leading unary
operator, then the token loop and the final drain. -/
def shunting_yard (fs : FileSys) : Nat → TokenList → Bool → Option Statement →
    Except Error (Statement × TokenList)
  | 0, tl, _, _ => fuelError tl
  | fuel + 1, tokens, unary_start, leading => do
    let stack : List ShuntedStackItem :=
      match leading with
      | some l => [.new_operand l]
      | none => []
    let (negative, stack, tokens) ←
      if unary_start then do
        let (op, tokens1) ← tokens.expect .Operator
        let (negative, stack1) ← parse_shunting_yard_leading_op op stack
        pure (negative, stack1, tokens1)
      else pure (false, stack, tokens)
    let (stack, op_stack, tokens) ← sy_loop fs fuel tokens stack [] none negative
    -- the drain error position is the Rust tokens.peek().unwrap().start
    let stack ← sy_drain op_stack stack (((tokens.peek).map (·.start)).getD tokens.eof)
    .ok (.Postfix stack, tokens)

/-- The main token loop of shunting_yard, with the postfix output, the
operator stack, the last_op unary tracker, and the negative flag. -/
def sy_loop (fs : FileSys) : Nat → TokenList → List ShuntedStackItem → List Token →
    Option Operator → Bool →
    Except Error (List ShuntedStackItem × List Token × TokenList)
  | 0, tl, _, _, _, _ => fuelError tl
  | fuel + 1, tokens, stack, op_stack, last_op, negative =>
    match tokens.peek with
    | none => .ok (stack, op_stack, tokens)
    | some token =>
      match token.token_type with
      | .NumberLit =>
        let tokens := (tokens.consume).2
        sy_loop fs fuel tokens
          (stack ++ [.new_operand (.NumberLiteral ⟨token.value.getD "", negative⟩)])
          op_stack none false
      | .Ident => do
        let (stmt, tokens) ← parse_identifier fs fuel tokens false
        sy_loop fs fuel tokens (stack ++ [.new_operand stmt]) op_stack none false
      | .Operator =>
        let tokens := (tokens.consume).2
        let operator := token.op.getD .Add
        if last_op.isSome then do
          let (negative, stack) ← parse_shunting_yard_leading_op token stack
          sy_loop fs fuel tokens stack op_stack (some operator) negative
        else if operator = .Inc ∨ operator = .Dec then
          sy_loop fs fuel tokens (stack ++ [.new_operator operator]) op_stack last_op negative
        else do
          let (stack, op_stack) ← sy_pop_ops operator op_stack stack
          sy_loop fs fuel tokens stack (token :: op_stack) (some operator) negative
      | .OpenParen =>
        let tokens := (tokens.consume).2
        -- AddAssign is the sentinel the source stores for a non-operator
        sy_loop fs fuel tokens stack (token :: op_stack) (some .AddAssign) negative
      | .CloseParen => do
        let (found, stack, op_stack) ← sy_close_paren op_stack stack token.start
        if found then
          sy_loop fs fuel ((tokens.consume).2) stack op_stack none false
        else
          .ok (stack, op_stack, tokens)
      | .Whitespace =>
        sy_loop fs fuel ((tokens.consume).2) stack op_stack last_op negative
      | _ => .ok (stack, op_stack, tokens)

/-- parse_number_lit: the number, then the curious double peek of the
source (a dot chains a property access, an operator or anything else
hands the literal to shunting-yard as the leading operand). -/
def parse_number_lit (fs : FileSys) : Nat → TokenList → Except Error (Statement × TokenList)
  | 0, tl => fuelError tl
  | fuel + 1, tokens => do
    let (t, tokens) := tokens.consume
    let number := Statement.NumberLiteral ⟨(t.bind (·.value)).getD "", false⟩
    let tokens := tokens.optional_whitespace
    let next := tokens.peek
    let (number, tokens) ←
      match tokens.peek with
      | some n2 =>
        if n2.token_type = .Dot then parse_property fs fuel tokens number
        else pure (number, tokens)
      | none => pure (number, tokens)
    match next with
    | some next_token =>
      match next_token.token_type with
      | .Dot => parse_property fs fuel tokens number
      | _ => shunting_yard fs fuel tokens false (some number)
    | none => shunting_yard fs fuel tokens false (some number)

/-- parse_ident_statement: after whitespace, dispatch on the next token;
with shunt set an operator hands the chain to shunting-yard, without it
only call, index, and property chains continue. -/
def parse_ident_statement (fs : FileSys) : Nat → TokenList → Statement → Bool →
    Except Error (Option Statement × TokenList)
  | 0, tl, _, _ => fuelError tl
  | fuel + 1, tokens, left, shunt =>
    let tokens := tokens.optional_whitespace
    match tokens.peek with
    | none => .ok (none, tokens)
    | some next =>
      if shunt then
        match next.token_type with
        | .OpenParen => do
          let (s, tokens1) ← parse_fn_call fs fuel tokens left
          .ok (some s, tokens1)
        | .OpenBrace => do
          let (s, tokens1) ← parse_index fs fuel tokens left
          .ok (some s, tokens1)
        | .Dot => do
          let (s, tokens1) ← parse_property fs fuel tokens left
          .ok (some s, tokens1)
        | .Operator => do
          let (s, tokens1) ← shunting_yard fs fuel tokens false (some left)
          .ok (some s, tokens1)
        | _ => .ok (none, tokens)
      else
        match next.token_type with
        | .OpenParen => do
          let (s, tokens1) ← parse_fn_call fs fuel tokens left
          .ok (some s, tokens1)
        | .OpenBrace => do
          let (s, tokens1) ← parse_index fs fuel tokens left
          .ok (some s, tokens1)
        | .Dot => do
          let (s, tokens1) ← parse_property fs fuel tokens left
          .ok (some s, tokens1)
        | _ => .ok (none, tokens)

/-- parse_identifier: consume the identifier and extend it while
parse_ident_statement keeps producing. -/
def parse_identifier (fs : FileSys) : Nat → TokenList → Bool →
    Except Error (Statement × TokenList)
  | 0, tl, _ => fuelError tl
  | fuel + 1, tokens, shunt =>
    let (t, tokens) := tokens.consume
    let ident := Statement.Identifier ((t.bind (·.value)).getD "")
    let tokens := tokens.optional_whitespace
    parse_identifier_loop fs fuel tokens ident shunt

/-- The chain loop of parse_identifier. -/
def parse_identifier_loop (fs : FileSys) : Nat → TokenList → Statement → Bool →
    Except Error (Statement × TokenList)
  | 0, tl, _, _ => fuelError tl
  | fuel + 1, tokens, expr, shunt => do
    let (r, tokens) ← parse_ident_statement fs fuel tokens expr shunt
    match r with
    | some stmnt => parse_identifier_loop fs fuel tokens stmnt shunt
    | none => .ok (expr, tokens)

/-- parse_panic: a close paren as the next non-whitespace token means a
Void payload, else the value statement. -/
def parse_panic (fs : FileSys) : Nat → TokenList → Except Error (Statement × TokenList)
  | 0, tl => fuelError tl
  | fuel + 1, tokens =>
    let tokens := (tokens.consume).2
    if tokens.next_after_ws .CloseParen then
      .ok (.Panic .Void, tokens.optional_whitespace)
    else do
      let (v, tokens) ← parse_statement fs fuel tokens
      .ok (.Panic v, tokens)

/-- parse_statement: statements inside blocks. -/
def parse_statement (fs : FileSys) : Nat → TokenList → Except Error (Statement × TokenList)
  | 0, tl => fuelError tl
  | fuel + 1, tokens =>
    if (tokens.peek).isNone then
      .error (Error.new_singular "Reached end of file without finding an expression!" tokens.eof)
    else
      let tokens := tokens.optional_whitespace
      match tokens.peek with
      | none =>
        -- the Rust peek().unwrap() after skipping whitespace panics here
        .error (Error.new_singular "panic: parse_statement on whitespace-only input" tokens.eof)
      | some tok =>
        match tok.token_type with
        | .OpenBracket => parse_block fs fuel tokens
        | .OpenParen => shunting_yard fs fuel tokens false none
        | .Let => parse_declaration fs fuel tokens
        | .If => parse_if fs fuel tokens
        | .While => parse_while fs fuel tokens
        | .Loop => parse_loop fs fuel tokens
        | .For => parse_for fs fuel tokens
        | .Assert => parse_assert fs fuel tokens
        | .Return => parse_return fs fuel tokens
        | .NumberLit => parse_number_lit fs fuel tokens
        | .Ident => parse_identifier fs fuel tokens true
        | .Operator => shunting_yard fs fuel tokens true none
        | .Panic => parse_panic fs fuel tokens
        | .BoolTrue => .ok (.BoolLiteral true, (tokens.consume).2)
        | .BoolFalse => .ok (.BoolLiteral false, (tokens.consume).2)
        | .BinLit =>
          let (t, tokens1) := tokens.consume
          .ok (.BinaryLiteral ((t.bind (·.value)).getD ""), tokens1)
        | .HexLit =>
          let (t, tokens1) := tokens.consume
          .ok (.HexLiteral ((t.bind (·.value)).getD ""), tokens1)
        | .NOP => .ok (.NOP, (tokens.consume).2)
        | .StringLit =>
          let (t, tokens1) := tokens.consume
          .ok (.StringLiteral ((t.bind (·.value)).getD ""), tokens1)
        | _ =>
          .error (Error.new "Expected an expression" ("found: " ++ tok.token_type.display) tok.start)

/-- parse_global: expressions outside blocks; only fn, a stray
semicolon, or use are accepted. -/
def parse_global (fs : FileSys) : Nat → TokenList → Except Error (Statement × TokenList)
  | 0, tl => fuelError tl
  | fuel + 1, tokens =>
    if (tokens.peek).isNone then
      .error (Error.new_singular "Reached end of file without finding an expression!" tokens.eof)
    else
      let tokens := tokens.optional_whitespace
      match tokens.peek with
      | none =>
        .error (Error.new_singular "panic: parse_global on whitespace-only input" tokens.eof)
      | some tok =>
        match tok.token_type with
        | .Fn => parse_fn fs fuel tokens
        | .NOP => .ok (.NOP, (tokens.consume).2)
        | .Use => parse_use fs fuel tokens
        | _ =>
          .error (Error.new "Expected an expression" ("found: " ++ tok.token_type.display) tok.start)

/-- parse_file: skip whitespace, stop at EOF, otherwise collect
parse_global items. -/
def parse_file (fs : FileSys) : Nat → TokenList → Except Error (List Statement × TokenList)
  | 0, tl => fuelError tl
  | fuel + 1, tokens =>
    match tokens.peek with
    | none => .ok ([], tokens)
    | some token =>
      if token.token_type = .Whitespace then
        parse_file fs fuel ((tokens.consume).2)
      else if token.token_type = .EOF then
        .ok ([], (tokens.consume).2)
      else do
        let (e, tokens1) ← parse_global fs fuel tokens
        let (es, tokens2) ← parse_file fs fuel tokens1
        .ok (e :: es, tokens2)

end

/-- parse, src/parser.rs: the Program wrapper around parse_file. -/
def parse (fs : FileSys) (fuel : Nat) (tokens : TokenList) : Except Error Statement := do
  let (exprs, _) ← parse_file fs fuel tokens
  .ok (.Program exprs)

/-- parse_bin_op, src/parser.rs: the direct binary-operator path that
builds Assignment for the assign tag and Binary otherwise. Nothing in
the source ever calls it (nor parse_op, its only would-be caller), and
the Binary and Unary node kinds it would build do not even exist in the
statement enum; it is included to document the dead assignment path. -/
def parse_bin_op (fs : FileSys) (fuel : Nat) (tokens : TokenList) (left : Statement)
    (op : Operator) : Except Error (Statement × TokenList) := do
  let (right, tokens) ← parse_statement fs fuel tokens
  if op = .Assign then
    .ok (.Assignment left right, tokens)
  else
    -- Statement::Binary does not exist in src/statement.rs; dead code
    .error (Error.new_singular "unreachable: Statement::Binary is not a statement kind" tokens.eof)

/-- Lex a source string (no file name) and parse it as a whole program. -/
def parseSource (fs : FileSys) (fuel : Nat) (src : String) : Except Error Statement := do
  let tl ← lex (InputReader.new none src)
  parse fs fuel tl

/-- Lex a source string (no file name) and parse a single statement from
the front, as the statement grammar does inside blocks. -/
def parseStatementSource (fs : FileSys) (fuel : Nat) (src : String) : Except Error Statement := do
  let tl ← lex (InputReader.new none src)
  let (s, _) ← parse_statement fs fuel tl
  .ok s

/-- The node shapes parse_global can return: the program-level invariant
(spec section 8, invariant 1) that every immediate Program child is Fn,
Use, or NOP. -/
def isTopLevelItem : Statement → Bool
  | .Fn _ _ _ _ => true
  | .Use _ => true
  | .NOP => true
  | _ => false

/-! Verification. -/

/-- A bound computation that succeeded decomposes: the first stage
succeeded with some intermediate value on which the continuation
succeeded. -/
theorem okOfBind {α β : Type} {step : Except Error α} {next : α → Except Error β}
    {out : β} (h : (step >>= next) = .ok out) :
    ∃ mid, step = .ok mid ∧ next mid = .ok out := by
  cases hs : step with
  | error e =>
    rw [hs] at h
    exact absurd h (by simp [Bind.bind, Except.bind])
  | ok mid =>
    rw [hs] at h
    refine ⟨mid, rfl, ?_⟩
    simpa [Bind.bind, Except.bind] using h

/-- A successful parse_fn always returns an Fn node. -/
theorem parse_fn_shape {fs : FileSys} {fuel : Nat} {tl tl2 : TokenList} {s : Statement}
    (h : parse_fn fs fuel tl = .ok (s, tl2)) : isTopLevelItem s = true := by
  match fuel with
  | 0 => simp [parse_fn, fuelError] at h
  | fuel + 1 =>
    rw [parse_fn] at h
    obtain ⟨⟨a1, t1⟩, h1, h⟩ := okOfBind h
    obtain ⟨⟨a2, t2⟩, h2, h⟩ := okOfBind h
    obtain ⟨⟨a3, t3⟩, h3, h⟩ := okOfBind h
    dsimp only at h
    rcases hmv : t3.optional_op Operator.Move with ⟨mv, tk⟩
    rw [hmv] at h
    dsimp only at h
    cases mv with
    | some v =>
      obtain ⟨⟨a4, t4⟩, h4, h⟩ := okOfBind h
      dsimp only at h
      obtain ⟨⟨a5, t5⟩, h5, h⟩ := okOfBind h
      dsimp only at h
      simp only [Except.ok.injEq, Prod.mk.injEq] at h
      rw [← h.1]
      rfl
    | none =>
      obtain ⟨⟨a4, t4⟩, h4, h⟩ := okOfBind h
      dsimp only at h
      obtain ⟨⟨a5, t5⟩, h5, h⟩ := okOfBind h
      dsimp only at h
      simp only [Except.ok.injEq, Prod.mk.injEq] at h
      rw [← h.1]
      rfl

/-- A successful parse_use always returns a Use node. -/
theorem parse_use_shape {fs : FileSys} {fuel : Nat} {tl tl2 : TokenList} {s : Statement}
    (h : parse_use fs fuel tl = .ok (s, tl2)) : isTopLevelItem s = true := by
  match fuel with
  | 0 => simp [parse_use, fuelError] at h
  | fuel + 1 =>
    rw [parse_use] at h
    obtain ⟨⟨a1, t1⟩, h1, h⟩ := okOfBind h
    try dsimp only at h
    obtain ⟨⟨a2, t2⟩, h2, h⟩ := okOfBind h
    try dsimp only at h
    split at h
    · simp at h
    · obtain ⟨a3, h3, h⟩ := okOfBind h
      try dsimp only at h
      obtain ⟨⟨a4, t4⟩, h4, h⟩ := okOfBind h
      try dsimp only at h
      simp only [Except.ok.injEq, Prod.mk.injEq] at h
      rw [← h.1]
      rfl

/-- A successful parse_global returns only Fn, NOP, or Use nodes. -/
theorem parse_global_shape {fs : FileSys} {fuel : Nat} {tl tl2 : TokenList} {s : Statement}
    (h : parse_global fs fuel tl = .ok (s, tl2)) : isTopLevelItem s = true := by
  match fuel with
  | 0 => simp [parse_global, fuelError] at h
  | fuel + 1 =>
    rw [parse_global] at h
    split at h
    · simp at h
    · dsimp only at h
      split at h
      · simp at h
      · split at h
        · exact parse_fn_shape h
        · simp only [Except.ok.injEq, Prod.mk.injEq] at h
          rw [← h.1]
          rfl
        · exact parse_use_shape h
        · simp at h

/-- Every item a successful parse_file collects has a top-level shape. -/
theorem parse_file_items {fs : FileSys} :
    ∀ (fuel : Nat) (tl : TokenList) (es : List Statement) (tl2 : TokenList),
      parse_file fs fuel tl = .ok (es, tl2) → ∀ e ∈ es, isTopLevelItem e = true := by
  intro fuel
  induction fuel with
  | zero => intro tl es tl2 h; simp [parse_file, fuelError] at h
  | succ fuel ih =>
    intro tl es tl2 h
    rw [parse_file] at h
    split at h
    · simp only [Except.ok.injEq, Prod.mk.injEq] at h
      rw [← h.1]
      simp
    · split at h
      · exact ih _ _ _ h
      · split at h
        · simp only [Except.ok.injEq, Prod.mk.injEq] at h
          rw [← h.1]
          simp
        · obtain ⟨⟨a1, t1⟩, h1, h⟩ := okOfBind h
          try dsimp only at h
          obtain ⟨⟨a2, t2⟩, h2, h⟩ := okOfBind h
          try dsimp only at h
          simp only [Except.ok.injEq, Prod.mk.injEq] at h
          rw [← h.1]
          intro e he
          rcases List.mem_cons.mp he with rfl | he2
          · exact parse_global_shape h1
          · exact ih _ _ _ h2 e he2

/-- A successful parse is a Program of top-level items. -/
theorem parse_program_shape {fs : FileSys} {fuel : Nat} {tl : TokenList} {s : Statement}
    (h : parse fs fuel tl = .ok s) :
    ∃ exprs, s = .Program exprs ∧ ∀ e ∈ exprs, isTopLevelItem e = true := by
  rw [parse] at h
  obtain ⟨⟨es, t1⟩, h1, h⟩ := okOfBind h
  dsimp only at h
  simp only [Except.ok.injEq] at h
  exact ⟨es, h.symm, parse_file_items _ _ _ _ h1⟩

/-- skipWs drops any all-whitespace prefix. -/
theorem skipWs_append (wsp l : List Token) (hws : ∀ w ∈ wsp, w.token_type = .Whitespace) :
    skipWs (wsp ++ l) = skipWs l := by
  induction wsp with
  | nil => rfl
  | cons w ws ih =>
    have hw : w.token_type = .Whitespace := hws w (by simp)
    simp only [List.cons_append, skipWs, hw, if_pos]
    exact ih (fun x hx => hws x (by simp [hx]))

/-- parse_global on a leading token that is not fn, use, semicolon,
whitespace, or EOF fails with the expected-an-expression error at that
token. -/
theorem parse_global_bad {fs : FileSys} {fuel : Nat} {t : Token} {rest : List Token}
    {eofp : CodePos}
    (hbad : t.token_type ∉ ([.Fn, .Use, .NOP, .Whitespace, .EOF] : List TokenType))
    (hfuel : 0 < fuel) :
    parse_global fs fuel ⟨t :: rest, eofp⟩ =
      .error (Error.new "Expected an expression" ("found: " ++ t.token_type.display) t.start) := by
  have hne_ws : t.token_type ≠ .Whitespace := fun hh => hbad (by simp [hh])
  match fuel, hfuel with
  | fuel + 1, _ =>
    rw [parse_global]
    have hpeek : (TokenList.mk (t :: rest) eofp).peek = some t := rfl
    have hskip : (TokenList.mk (t :: rest) eofp).optional_whitespace =
        TokenList.mk (t :: rest) eofp := by
      simp [TokenList.optional_whitespace, skipWs, hne_ws]
    rw [hpeek]
    simp only [Option.isNone_some, Bool.false_eq_true, if_false]
    rw [hskip, hpeek]
    dsimp only
    split
    all_goals first
      | rfl
      | (rename_i heq; exact absurd (by simp [heq]) hbad)

/-- parse_file on a stream whose first non-whitespace token is not fn,
use, semicolon, or EOF fails with the expected-an-expression error at
that token (fuel past the whitespace prefix suffices). -/
theorem parse_file_bad {fs : FileSys} :
    ∀ (wsp : List Token) (fuel : Nat) (t : Token) (rest : List Token) (eofp : CodePos),
      (∀ w ∈ wsp, w.token_type = .Whitespace) →
      t.token_type ∉ ([.Fn, .Use, .NOP, .Whitespace, .EOF] : List TokenType) →
      wsp.length + 1 < fuel →
      parse_file fs fuel ⟨wsp ++ t :: rest, eofp⟩ =
        .error (Error.new "Expected an expression" ("found: " ++ t.token_type.display) t.start) := by
  intro wsp
  induction wsp with
  | nil =>
    intro fuel t rest eofp hws hbad hfuel
    have hne_ws : t.token_type ≠ .Whitespace := fun hh => hbad (by simp [hh])
    have hne_eof : t.token_type ≠ .EOF := fun hh => hbad (by simp [hh])
    match fuel, hfuel with
    | fuel + 1, hfuel =>
      rw [parse_file]
      have hpeek : (TokenList.mk ([] ++ t :: rest) eofp).peek = some t := rfl
      rw [hpeek]
      dsimp only
      rw [if_neg (by simp [hne_ws]), if_neg (by simp [hne_eof])]
      have hg : parse_global fs fuel ⟨[] ++ t :: rest, eofp⟩ =
          .error (Error.new "Expected an expression" ("found: " ++ t.token_type.display) t.start) :=
        parse_global_bad hbad (by omega)
      rw [hg]
      rfl
  | cons w ws ih =>
    intro fuel t rest eofp hws hbad hfuel
    have hw : w.token_type = .Whitespace := hws w (by simp)
    match fuel, hfuel with
    | fuel + 1, hfuel =>
      rw [parse_file]
      have hpeek : (TokenList.mk ((w :: ws) ++ t :: rest) eofp).peek = some w := rfl
      rw [hpeek]
      dsimp only
      rw [if_pos (by simp [hw])]
      have hcons : ((TokenList.mk ((w :: ws) ++ t :: rest) eofp).consume).2 =
          TokenList.mk (ws ++ t :: rest) eofp := rfl
      rw [hcons]
      exact ih fuel t rest eofp (fun x hx => hws x (by simp [hx])) hbad
        (by simpa using Nat.lt_of_succ_lt_succ hfuel)

/-- The parse-level corollary of parse_file_bad. -/
theorem parse_bad {fs : FileSys} {wsp : List Token} {fuel : Nat} {t : Token}
    {rest : List Token} {eofp : CodePos}
    (hws : ∀ w ∈ wsp, w.token_type = .Whitespace)
    (hbad : t.token_type ∉ ([.Fn, .Use, .NOP, .Whitespace, .EOF] : List TokenType))
    (hfuel : wsp.length + 1 < fuel) :
    parse fs fuel ⟨wsp ++ t :: rest, eofp⟩ =
      .error (Error.new "Expected an expression" ("found: " ++ t.token_type.display) t.start) := by
  rw [parse, parse_file_bad wsp fuel t rest eofp hws hbad hfuel]
  rfl

/-- C1: evaluation at the failing input. Parsing the statement
a = b + c does not produce an Assignment node: parse_identifier routes
the assign operator into shunting-yard (parse_bin_op, the direct
binary-op path that would build Assignment, is never called by anything),
so the result is the Postfix stack [a, b, c, Add, Assign] with the
assign tag inside the stack — contradicting the claim on both counts. -/
theorem C1_assign_flows_through_shunting_yard :
    parseStatementSource fsEmpty 64 "a = b + c" =
      .ok (.Postfix [.new_operand (.Identifier "a"), .new_operand (.Identifier "b"),
        .new_operand (.Identifier "c"), .new_operator .Add, .new_operator .Assign]) := rfl

/-- C2, counterexample: lexing and parsing fn main() { return 0; } does
not give the claimed AST whose function body block holds only the Return
statement — the trailing semicolon becomes a NOP statement inside the
block. -/
theorem C2_counterexample :
    parseSource fsEmpty 64 "fn main() { return 0; }" ≠
      .ok (.Program [.Fn (.Identifier "main") [] .Void
        (.Block [.Return (.Postfix [.new_operand (.NumberLiteral ⟨"0", false⟩)])])]) := by
  intro h
  rw [show parseSource fsEmpty 64 "fn main() { return 0; }" =
    .ok (.Program [.Fn (.Identifier "main") [] .Void
      (.Block [.Return (.Postfix [.new_operand (.NumberLiteral ⟨"0", false⟩)]),
        .NOP])]) from rfl] at h
  simp at h

/-- C2, amended: lexing and parsing fn main() { return 0; } succeeds and
yields Program[Fn(main, [], Void, Block[Return(Postfix[Number(0,false)]),
NOP])]: exactly the claimed AST except that the block also retains the
NOP produced by the trailing semicolon after the Return. -/
theorem C2_fn_main_ast :
    parseSource fsEmpty 64 "fn main() { return 0; }" =
      .ok (.Program [.Fn (.Identifier "main") [] .Void
        (.Block [.Return (.Postfix [.new_operand (.NumberLiteral ⟨"0", false⟩)]),
          .NOP])]) := rfl

/-- C3: parsing the statement let x: i32 = 1 + 2 * 3; yields a
Declaration of x of type i32 whose initializer is the Postfix stack
[1, 2, 3, Mul, Add] — multiplication binds tighter than addition. -/
theorem C3_declaration_initializer_postfix :
    parseStatementSource fsEmpty 64 "let x: i32 = 1 + 2 * 3;" =
      .ok (.Declaration (.Identifier "x")
        (some (.Type [] (.Identifier "i32")))
        (some (.Postfix [.new_operand (.NumberLiteral ⟨"1", false⟩),
          .new_operand (.NumberLiteral ⟨"2", false⟩),
          .new_operand (.NumberLiteral ⟨"3", false⟩),
          .new_operator .Mul, .new_operator .Add]))) := rfl

/-- C4: the shunting-yard comparison optLe o2.precedence o.precedence
fails (that is, the stacked operator o2 is popped) exactly when o2's
precedence is strictly greater than the incoming o's in the Rust Option
ordering; in particular equal precedence pops nothing, so parsing the
statement 1 - 2 + 3 yields the right-associative postfix
[1, 2, 3, Add, Sub]. -/
theorem C4_strict_precedence_popping :
    parseStatementSource fsEmpty 64 "1 - 2 + 3" =
      .ok (.Postfix [.new_operand (.NumberLiteral ⟨"1", false⟩),
        .new_operand (.NumberLiteral ⟨"2", false⟩),
        .new_operand (.NumberLiteral ⟨"3", false⟩),
        .new_operator .Add, .new_operator .Sub]) ∧
    ∀ o2 o : Operator,
      (optLe o2.precedence o.precedence = false ↔
        (optLe o.precedence o2.precedence = true ∧ o2.precedence ≠ o.precedence)) :=
  ⟨rfl, by decide⟩

/-- C5: evaluation at the failing input. Lexing and parsing the
statement if x < 10 { } else { } yields a condition stack whose operator
is Gt, not Lt (the lexer maps a plain less-than to Gt), and no else
branch at all (next_is does not skip the whitespace before the else
keyword, so the else block is left unconsumed) — against the claimed
If(Postfix[x, 10, Lt], Block[], Some(Block[])). -/
theorem C5_if_with_lt_and_else :
    parseStatementSource fsEmpty 64 "if x < 10 { } else { }" =
      .ok (.If (.Postfix [.new_operand (.Identifier "x"),
          .new_operand (.NumberLiteral ⟨"10", false⟩),
          .new_operator .Gt])
        (.Block []) none) := rfl

/-- C6: evaluation at the failing input. Lexing the one-character input
consisting of a lone opening double quote — an unterminated string
literal — does not fail: it returns a StringLit token with empty text
(the unterminated-string check runs only after at least one content
character has been consumed). -/
theorem C6_lone_quote_string_literal :
    lex (InputReader.new none "\"") =
      .ok (TokenList.new [Token.new_lit .StringLit "" ⟨none, 1, 1⟩ ⟨none, 1, 2⟩,
        Token.new .EOF ⟨none, 1, 2⟩ ⟨none, 1, 2⟩]) := rfl

/-- C7, counterexample: parsing the statement -x + 4 produces a Postfix
stack that does not contain the operator Sub at all, contradicting the
claimed stack [Sub, x, Add, 4]. -/
theorem C7_counterexample :
    parseStatementSource fsEmpty 64 "-x + 4" =
      .ok (.Postfix [.new_operand (.Identifier "x"),
        .new_operand (.NumberLiteral ⟨"4", false⟩),
        .new_operator .Add]) ∧
    ShuntedStackItem.new_operator .Sub ∉
      ([.new_operand (.Identifier "x"),
        .new_operand (.NumberLiteral ⟨"4", false⟩),
        .new_operator .Add] : List ShuntedStackItem) :=
  ⟨rfl, by simp⟩

/-- C7, amended: parsing the statement -x + 4, the standalone leading
minus only sets the shunting-yard negative flag, which the identifier
operand then clears without effect (only a NumberLit consumes it), so
nothing is pushed for the minus and the produced stack is
[Identifier x, Number(4, false), Add]. -/
theorem C7_leading_minus_discarded :
    parseStatementSource fsEmpty 64 "-x + 4" =
      .ok (.Postfix [.new_operand (.Identifier "x"),
        .new_operand (.NumberLiteral ⟨"4", false⟩),
        .new_operator .Add]) := rfl

/-- C8: evaluation at the failing inputs. The program
fn f() { a = b + c ; } lexes and parses successfully, yet its body holds
the Postfix stack [a, b, c, Add, Assign] whose Assign item has undefined
precedence; and fn main() { ++x ; } parses to the stack [Add, 1, x],
which read as reverse Polish pops two operands for Add with none
available — both contradicting the claimed well-formedness invariant. -/
theorem C8_undefined_precedence_operator_in_stack :
    parseSource fsEmpty 64 "fn f() { a = b + c ; }" =
      .ok (.Program [.Fn (.Identifier "f") [] .Void (.Block
        [.Postfix [.new_operand (.Identifier "a"), .new_operand (.Identifier "b"),
          .new_operand (.Identifier "c"), .new_operator .Add, .new_operator .Assign],
         .NOP])]) ∧
    Operator.Assign.precedence = none ∧
    parseSource fsEmpty 64 "fn main() { ++x ; }" =
      .ok (.Program [.Fn (.Identifier "main") [] .Void (.Block
        [.Postfix [.new_operator .Add, .new_operand (.NumberLiteral ⟨"1", false⟩),
          .new_operand (.Identifier "x")],
         .NOP])]) :=
  ⟨rfl, rfl, rfl⟩

/-- C9: for every file system, fuel, and token stream, a successful
parse returns a Program whose immediate children are all Fn, Use, or NOP
nodes; parse_global on any leading token kind other than fn, use,
semicolon, whitespace, or EOF fails with the heading Expected an
expression at that token; and a whole parse of a stream whose first
non-whitespace token has such a kind fails the same way. -/
theorem C9_program_shape_and_bad_token_error :
    (∀ (fs : FileSys) (fuel : Nat) (tl : TokenList) (s : Statement),
      parse fs fuel tl = .ok s →
      ∃ exprs, s = .Program exprs ∧ ∀ e ∈ exprs, isTopLevelItem e = true) ∧
    (∀ (fs : FileSys) (fuel : Nat) (t : Token) (rest : List Token) (eofp : CodePos),
      t.token_type ∉ ([.Fn, .Use, .NOP, .Whitespace, .EOF] : List TokenType) →
      0 < fuel →
      parse_global fs fuel ⟨t :: rest, eofp⟩ =
        .error (Error.new "Expected an expression" ("found: " ++ t.token_type.display) t.start)) ∧
    (∀ (fs : FileSys) (fuel : Nat) (wsp : List Token) (t : Token) (rest : List Token)
      (eofp : CodePos),
      (∀ w ∈ wsp, w.token_type = .Whitespace) →
      t.token_type ∉ ([.Fn, .Use, .NOP, .Whitespace, .EOF] : List TokenType) →
      wsp.length + 1 < fuel →
      parse fs fuel ⟨wsp ++ t :: rest, eofp⟩ =
        .error (Error.new "Expected an expression" ("found: " ++ t.token_type.display) t.start)) :=
  ⟨fun _ _ _ _ h => parse_program_shape h,
   fun _ _ _ _ _ hbad hfuel => parse_global_bad hbad hfuel,
   fun _ _ _ _ _ _ hws hbad hfuel => parse_bad hws hbad hfuel⟩

/-- C9, witness: the shape part at the successful parse of a lone EOF
token, and both error parts at an Ident token at the top level. -/
theorem C9_witness :
    (∃ exprs, Statement.Program [] = Statement.Program exprs ∧
      ∀ e ∈ exprs, isTopLevelItem e = true) ∧
    parse_global fsEmpty 1
      ⟨[Token.new .Ident ⟨none, 1, 1⟩ ⟨none, 1, 2⟩,
        Token.new .EOF ⟨none, 1, 2⟩ ⟨none, 1, 2⟩], ⟨none, 1, 2⟩⟩ =
      .error (Error.new "Expected an expression" ("found: " ++ TokenType.Ident.display)
        ⟨none, 1, 1⟩) ∧
    parse fsEmpty 4
      ⟨[Token.new .Whitespace ⟨none, 1, 1⟩ ⟨none, 1, 2⟩,
        Token.new .Ident ⟨none, 1, 2⟩ ⟨none, 1, 3⟩,
        Token.new .EOF ⟨none, 1, 3⟩ ⟨none, 1, 3⟩], ⟨none, 1, 3⟩⟩ =
      .error (Error.new "Expected an expression" ("found: " ++ TokenType.Ident.display)
        ⟨none, 1, 2⟩) :=
  ⟨C9_program_shape_and_bad_token_error.1 fsEmpty 1
      ⟨[Token.new .EOF CodePos.dflt CodePos.dflt], CodePos.dflt⟩ (Statement.Program []) rfl,
   C9_program_shape_and_bad_token_error.2.1 fsEmpty 1
      (Token.new .Ident ⟨none, 1, 1⟩ ⟨none, 1, 2⟩)
      [Token.new .EOF ⟨none, 1, 2⟩ ⟨none, 1, 2⟩] ⟨none, 1, 2⟩ (by decide) (by decide),
   C9_program_shape_and_bad_token_error.2.2 fsEmpty 4
      [Token.new .Whitespace ⟨none, 1, 1⟩ ⟨none, 1, 2⟩]
      (Token.new .Ident ⟨none, 1, 2⟩ ⟨none, 1, 3⟩)
      [Token.new .EOF ⟨none, 1, 3⟩ ⟨none, 1, 3⟩] ⟨none, 1, 3⟩
      (by decide) (by decide) (by decide)⟩

/-- C10: the requested operator argument of expect_op and optional_op is
never compared against the found token: whenever the next non-whitespace
token is an Operator token carrying any tag t, expect_op req succeeds
returning t and optional_op req consumes the token and returns some t,
for every requested req. -/
theorem C10_op_expectations_ignore_argument (req t : Operator) (wsp : List Token)
    (tok : Token) (rest : List Token) (eofp : CodePos)
    (hws : ∀ w ∈ wsp, w.token_type = .Whitespace)
    (htt : tok.token_type = .Operator) (hop : tok.op = some t) :
    TokenList.expect_op ⟨wsp ++ tok :: rest, eofp⟩ req = .ok (t, ⟨rest, eofp⟩) ∧
    TokenList.optional_op ⟨wsp ++ tok :: rest, eofp⟩ req = (some t, ⟨rest, eofp⟩) := by
  have hne : tok.token_type ≠ .Whitespace := by simp [htt]
  have hskip : skipWs (wsp ++ tok :: rest) = tok :: rest := by
    rw [skipWs_append wsp _ hws]
    simp [skipWs, hne]
  constructor
  · simp [TokenList.expect_op, TokenList.expect, TokenList.optional_whitespace, hskip,
      TokenList.consume, htt, hop, Bind.bind, Except.bind]
  · simp [TokenList.optional_op, TokenList.optional_expect, TokenList.optional_whitespace,
      hskip, TokenList.peek, TokenList.consume, htt, hop]

/-- C10, witness: optional_op and expect_op requesting Assign both accept
a plus token (after whitespace) and return Add. -/
theorem C10_witness :
    TokenList.expect_op
      ⟨[Token.new .Whitespace ⟨none, 1, 1⟩ ⟨none, 1, 2⟩,
        Token.new_op .Add ⟨none, 1, 2⟩ ⟨none, 1, 3⟩,
        Token.new .EOF ⟨none, 1, 3⟩ ⟨none, 1, 3⟩], ⟨none, 1, 3⟩⟩ .Assign =
      .ok (.Add, ⟨[Token.new .EOF ⟨none, 1, 3⟩ ⟨none, 1, 3⟩], ⟨none, 1, 3⟩⟩) ∧
    TokenList.optional_op
      ⟨[Token.new .Whitespace ⟨none, 1, 1⟩ ⟨none, 1, 2⟩,
        Token.new_op .Add ⟨none, 1, 2⟩ ⟨none, 1, 3⟩,
        Token.new .EOF ⟨none, 1, 3⟩ ⟨none, 1, 3⟩], ⟨none, 1, 3⟩⟩ .Assign =
      (some .Add, ⟨[Token.new .EOF ⟨none, 1, 3⟩ ⟨none, 1, 3⟩], ⟨none, 1, 3⟩⟩) :=
  C10_op_expectations_ignore_argument .Assign .Add
    [Token.new .Whitespace ⟨none, 1, 1⟩ ⟨none, 1, 2⟩]
    (Token.new_op .Add ⟨none, 1, 2⟩ ⟨none, 1, 3⟩)
    [Token.new .EOF ⟨none, 1, 3⟩ ⟨none, 1, 3⟩] ⟨none, 1, 3⟩
    (by decide) rfl rfl

end Boulder
